import Mathlib

/-!
Verification development for the route-map rendering engine of the
`louisiana` repository (src/map_generator.py and src/label_overrides.py).

The Python float arithmetic is embedded over `ℚ` (exact rational
arithmetic); coordinates that may be `None` in Python are embedded as
`Option ℚ`.  Every definition below is translated from the source file
and line range named in its doc comment.
-/

namespace Louisiana

/-- Pair of rational coordinates, standing for a 2D float point
(longitude, latitude) or an (x, y) pixel position. -/
abbrev Pt := ℚ × ℚ

/-- RoutePoint record (spec section 3): a dict with keys name, latitude,
longitude, the coordinates possibly missing (Python None). -/
structure RoutePoint where
  name : String
  latitude : Option ℚ
  longitude : Option ℚ
deriving Repr, DecidableEq

/-- Cleaned label-override entry, as produced by
src/label_overrides.py load_overrides (lines 30-33): both fields present. -/
structure LabelOverride where
  dx : ℚ
  dy : ℚ
deriving Repr, DecidableEq

/-- Filter of map_generator.py lines 184-187: keep only route points whose
latitude and longitude are both non-None. -/
def valid_cities (route : List RoutePoint) : List RoutePoint :=
  route.filter (fun c => c.latitude.isSome && c.longitude.isSome)

/-- Python max over a list, as used on the non-empty lists of
coordinates in generate_map (lines 199-211); 0 on the empty list. -/
def list_max : List ℚ → ℚ
  | [] => 0
  | x :: xs => xs.foldl max x

/-- Python min over a list; 0 on the empty list. -/
def list_min : List ℚ → ℚ
  | [] => 0
  | x :: xs => xs.foldl min x

theorem le_foldl_max (xs : List ℚ) (a : ℚ) : a ≤ xs.foldl max a := by
  induction xs generalizing a with
  | nil => exact le_refl a
  | cons x xs ih => exact le_trans (le_max_left a x) (ih (max a x))

theorem foldl_min_le (xs : List ℚ) (a : ℚ) : xs.foldl min a ≤ a := by
  induction xs generalizing a with
  | nil => exact le_refl a
  | cons x xs ih => exact le_trans (ih (min a x)) (min_le_left a x)

theorem mem_le_foldl_max (xs : List ℚ) (a x : ℚ) (hx : x ∈ xs) : x ≤ xs.foldl max a := by
  induction xs generalizing a with
  | nil => cases hx
  | cons y ys ih =>
    rcases List.mem_cons.1 hx with h | h
    · subst h
      exact le_trans (le_max_right a x) (le_foldl_max ys (max a x))
    · exact ih (max a y) h

theorem foldl_min_le_mem (xs : List ℚ) (a x : ℚ) (hx : x ∈ xs) : xs.foldl min a ≤ x := by
  induction xs generalizing a with
  | nil => cases hx
  | cons y ys ih =>
    rcases List.mem_cons.1 hx with h | h
    · subst h
      exact le_trans (foldl_min_le ys (min a x)) (min_le_right a x)
    · exact ih (min a y) h

theorem mem_le_list_max {l : List ℚ} {x : ℚ} (hx : x ∈ l) : x ≤ list_max l := by
  cases l with
  | nil => cases hx
  | cons y ys =>
    rcases List.mem_cons.1 hx with h | h
    · subst h
      exact le_foldl_max ys x
    · exact mem_le_foldl_max ys y x h

theorem list_min_le_mem {l : List ℚ} {x : ℚ} (hx : x ∈ l) : list_min l ≤ x := by
  cases l with
  | nil => cases hx
  | cons y ys =>
    rcases List.mem_cons.1 hx with h | h
    · subst h
      exact foldl_min_le ys x
    · exact foldl_min_le_mem ys y x h

/-- Fan offset of _build_curve, map_generator.py lines 632-638, with the
Euclidean length of the direction vector abstracted as the parameter
`dlen` (the code writes `np.linalg.norm(direction)`): the base offset is
`curve_strength * dlen`; for a bundle of more than one occurrence the
control point fans by `(occurrence_idx - (total - 1)/2)` steps of
`0.18 * base_offset`, added to the base offset. -/
def fan_offset (curve_strength : ℚ) (occurrence_idx total_occurrences : ℕ) (dlen : ℚ) : ℚ :=
  let base_offset := curve_strength * dlen
  if 1 < total_occurrences then
    base_offset +
      ((occurrence_idx : ℚ) - ((total_occurrences : ℚ) - 1) / 2) * (0.18 * base_offset)
  else base_offset

/-- Fan coefficient: `fan_offset` divided by the direction length.  In
_build_curve the control point is
`mid + (perpendicular / dlen) * fan_offset(..., dlen)`, and the two
occurrences of `dlen` cancel, so the control point equals
`mid + perpendicular_raw * fan_coeff` with
`perpendicular_raw = (-direction.y, direction.x)` unnormalized.  This
cancellation keeps the embedding inside ℚ (no square root). -/
def fan_coeff (curve_strength : ℚ) (occurrence_idx total_occurrences : ℕ) : ℚ :=
  if 1 < total_occurrences then
    curve_strength * (1 + ((occurrence_idx : ℚ) - ((total_occurrences : ℚ) - 1) / 2) * 0.18)
  else curve_strength

theorem fan_offset_eq_dlen_mul_coeff (s : ℚ) (i n : ℕ) (dlen : ℚ) :
    fan_offset s i n dlen = dlen * fan_coeff s i n := by
  unfold fan_offset fan_coeff
  split <;> ring

/-- Quadratic Bezier point, map_generator.py lines 642-646:
`B(t) = (1-t)^2 * start + 2 (1-t) t * control + t^2 * end`. -/
def bezier_point (s c q : Pt) (t : ℚ) : Pt :=
  ((1 - t) ^ 2 * s.1 + 2 * (1 - t) * t * c.1 + t ^ 2 * q.1,
   (1 - t) ^ 2 * s.2 + 2 * (1 - t) * t * c.2 + t ^ 2 * q.2)

/-- Embedding of _build_curve, map_generator.py lines 610-647.  Degenerate case: equal
endpoints give the two-point segment (the source tests
`np.allclose(direction, 0)`; the tolerance is abstracted to exact zero).
Otherwise the control point is the midpoint displaced along the
perpendicular `(-dy, dx)` by `fan_coeff` (see `fan_coeff` for the exact
cancellation of the normalization against the norm in the base offset),
sampled at the 50 parameters `np.linspace(0, 1, 50)`, i.e. `t = i/49`. -/
def build_curve (s q : Pt) (occurrence_idx total_occurrences : ℕ)
    (curve_strength : ℚ) : List Pt :=
  let d : Pt := (q.1 - s.1, q.2 - s.2)
  if d = ((0 : ℚ), (0 : ℚ)) then [s, q]
  else
    let mid : Pt := ((s.1 + q.1) / 2, (s.2 + q.2) / 2)
    let k := fan_coeff curve_strength occurrence_idx total_occurrences
    let control : Pt := (mid.1 + (-d.2) * k, mid.2 + d.1 * k)
    (List.range 50).map (fun n : ℕ => bezier_point s control q ((n : ℚ) / 49))

/-- Reflection of the plane across the line through `a` and `b` (the
mirror image used to state the curve symmetry property; assumes
`a ≠ b`).  Expressed with the squared length of `b - a`, so it stays in
ℚ. -/
def reflect_across (a b p : Pt) : Pt :=
  let d : Pt := (b.1 - a.1, b.2 - a.2)
  let len2 := d.1 ^ 2 + d.2 ^ 2
  let ap : Pt := (p.1 - a.1, p.2 - a.2)
  let pr := (ap.1 * d.1 + ap.2 * d.2) / len2
  (a.1 + 2 * pr * d.1 - ap.1, a.2 + 2 * pr * d.2 - ap.2)

/-- Paper format catalog entry, map_generator.py lines 35-81. -/
structure PaperSpec where
  id : String
  label : String
  width_mm : ℚ
  height_mm : ℚ
deriving Repr, DecidableEq

/-- The static PAPER_FORMATS catalog, map_generator.py lines 35-81. -/
def PAPER_FORMATS : List PaperSpec :=
  [⟨"A4", "A4 (210 × 297 mm)", 210, 297⟩,
   ⟨"A3", "A3 (297 × 420 mm)", 297, 420⟩,
   ⟨"POSTER_50X70", "Plakat 50 × 70 cm", 500, 700⟩,
   ⟨"POSTER_70X50", "Plakat 70 × 50 cm", 700, 500⟩,
   ⟨"POSTER_60X100", "Plakat 60 × 100 cm", 600, 1000⟩,
   ⟨"POSTER_100X60", "Plakat 100 × 60 cm", 1000, 600⟩,
   ⟨"SQUARE", "Kwadrat 1 : 1 (50 × 50 cm)", 500, 500⟩,
   ⟨"RECTANGLE_3X2", "Prostokąt 3 : 2 (60 × 40 cm)", 600, 400⟩,
   ⟨"POSTCARD", "Pocztówka 10 × 15 cm (4 × 6 cali)", 100, 150⟩]

/-- Dictionary lookup `PAPER_FORMATS.get(key)`, line 216. -/
def paper_spec_for (key : String) : Option PaperSpec :=
  PAPER_FORMATS.find? (fun spec => spec.id == key)

/-- MM_PER_INCH constant, map_generator.py line 34. -/
def MM_PER_INCH : ℚ := 25.4

/-- Constructor parameters of MapGenerator (lines 83-157) that the
embedded pipeline depends on, with the source defaults recorded in
`default_params`. -/
structure GenParams where
  min_margin_deg : ℚ
  max_margin_factor : ℚ
  curve_strength : ℚ
  paper_format : Option String
  figsize_default : ℚ × ℚ
  merge_bidirectional_routes : Bool
  lock_paper_orientation : Bool
deriving Repr, DecidableEq

/-- Defaults of MapGenerator.__init__, lines 85-114. -/
def default_params : GenParams :=
  { min_margin_deg := 1
    max_margin_factor := 0.15
    curve_strength := 0.25
    paper_format := none
    figsize_default := (12, 8)
    merge_bidirectional_routes := false
    lock_paper_orientation := false }

/-- Effective minimum margin, line 204: halved for the POSTCARD format. -/
def min_margin_eff (p : GenParams) : ℚ :=
  if p.paper_format = some "POSTCARD" then p.min_margin_deg * 0.5 else p.min_margin_deg

/-- Embedding of _margin_factor_lat, lines 503-507 (self.margin_factor is
max_margin_factor, line 129): halved for the POSTCARD format. -/
def margin_factor_lat (p : GenParams) : ℚ :=
  if p.paper_format = some "POSTCARD" then p.max_margin_factor * 0.5 else p.max_margin_factor

/-- Embedding of _margin_factor_lon, lines 509-513. -/
def margin_factor_lon (p : GenParams) : ℚ :=
  if p.paper_format = some "POSTCARD" then p.max_margin_factor * 0.5 else p.max_margin_factor

/-- Coordinate span, lines 199-200: `max - min` when the list has more
than one element, else 0.0. -/
def coord_span (l : List ℚ) : ℚ :=
  if 1 < l.length then list_max l - list_min l else 0

/-- Visible coordinate window, generate_map lines 199-211:
margin is `max(min_margin, span * factor)` per axis, and the bounds are
min minus margin to max plus margin per axis. -/
structure Bounds where
  lon_min : ℚ
  lon_max : ℚ
  lat_min : ℚ
  lat_max : ℚ
deriving Repr, DecidableEq

/-- Bounds computation of generate_map lines 199-211 on the latitude and
longitude lists of the valid cities. -/
def compute_bounds (p : GenParams) (lats lons : List ℚ) : Bounds :=
  let margin_lat := max (min_margin_eff p) (coord_span lats * margin_factor_lat p)
  let margin_lon := max (min_margin_eff p) (coord_span lons * margin_factor_lon p)
  { lon_min := list_min lons - margin_lon
    lon_max := list_max lons + margin_lon
    lat_min := list_min lats - margin_lat
    lat_max := list_max lats + margin_lat }

/-- Figure size resolution in inches, generate_map lines 213-232:
unknown or absent format (or non-positive dimensions) keeps the default
figsize; otherwise mm are converted to inches and width/height are
swapped when orientation is not locked and the point bounding box aspect
contradicts the format aspect. -/
def resolve_figsize (p : GenParams) (lon_span lat_span : ℚ) : ℚ × ℚ :=
  match p.paper_format with
  | none => p.figsize_default
  | some fmt =>
    match paper_spec_for fmt with
    | none => p.figsize_default
    | some spec =>
      if 0 < spec.width_mm ∧ 0 < spec.height_mm then
        let width_in := spec.width_mm / MM_PER_INCH
        let height_in := spec.height_mm / MM_PER_INCH
        if ¬p.lock_paper_orientation ∧ lat_span < lon_span ∧ width_in < height_in then
          (height_in, width_in)
        else if ¬p.lock_paper_orientation ∧ lon_span < lat_span ∧ height_in < width_in then
          (height_in, width_in)
        else (width_in, height_in)
      else p.figsize_default

/-- Segment key `(names[i], names[i+1], i)`, generate_map lines 242-244. -/
abbrev SegKey := String × String × ℕ

/-- Segment keys of consecutive valid cities, lines 242-244. -/
def segment_keys (names : List String) : List SegKey :=
  (List.range (names.length - 1)).map (fun i => (names.getD i "", names.getD (i + 1) "", i))

/-- Python `tuple(sorted((start_name, end_name)))`, line 253. -/
def canonical_pair (a b : String) : String × String :=
  if a ≤ b then (a, b) else (b, a)

/-- Canonical unordered pair of a segment key. -/
def canonical_of (k : SegKey) : String × String :=
  canonical_pair k.1 k.2.1

/-- Drawing loop under merge_bidirectional_routes, lines 252-258: the
occurrence tracker keyed by the canonical pair is modeled by the list of
canonical pairs already seen (tracker value positive iff seen); a
segment whose canonical pair was seen is skipped (`continue`), otherwise
it is drawn with occurrence index 0 and total_occurrences 1. -/
def drawn_segments_merge : List SegKey → List (String × String) → List (SegKey × ℕ × ℕ)
  | [], _ => []
  | k :: rest, seen =>
    let c := canonical_of k
    if c ∈ seen then drawn_segments_merge rest seen
    else (k, 0, 1) :: drawn_segments_merge rest (c :: seen)

/-- Count of an ordered name pair among segment keys (Counter of
line 249 and the per-step tracker of lines 260-261). -/
def count_key (ks : List SegKey) (a b : String) : ℕ :=
  (ks.filter (fun k => k.1 == a && k.2.1 == b)).length

/-- Drawing loop without merging, lines 259-262: every segment is drawn;
its occurrence index is the number of earlier segments with the same
ordered pair and total_occurrences is the count over the whole route. -/
def drawn_segments_nomerge : List SegKey → List SegKey → List SegKey → List (SegKey × ℕ × ℕ)
  | [], _, _ => []
  | k :: rest, all, prev =>
    (k, count_key prev k.1 k.2.1, count_key all k.1 k.2.1) ::
      drawn_segments_nomerge rest all (prev ++ [k])

/-- Segments actually drawn by the loop of lines 251-262, with their
occurrence index and total occurrence count. -/
def drawn_segments (merge : Bool) (ks : List SegKey) : List (SegKey × ℕ × ℕ) :=
  if merge then drawn_segments_merge ks [] else drawn_segments_nomerge ks ks []

/-- Unique visible cities, generate_map lines 323-333: iterate the RAW
route (not the filtered valid list), skip hidden names, keep the first
occurrence of each name. -/
def unique_cities_aux : List RoutePoint → List String → List String → List RoutePoint
  | [], _, _ => []
  | c :: rest, hidden, seen =>
    if c.name ∈ hidden then unique_cities_aux rest hidden seen
    else if c.name ∈ seen then unique_cities_aux rest hidden seen
    else c :: unique_cities_aux rest hidden (c.name :: seen)

/-- Unique visible cities of the raw route, lines 323-333. -/
def unique_cities (route : List RoutePoint) (hidden : List String) : List RoutePoint :=
  unique_cities_aux route hidden []

/-- Latitudes of the valid cities (line 194), with the Option peeled
after the validity filter. -/
def route_lats (route : List RoutePoint) : List ℚ :=
  (valid_cities route).map (fun c => c.latitude.getD 0)

/-- Longitudes of the valid cities (line 195). -/
def route_lons (route : List RoutePoint) : List ℚ :=
  (valid_cities route).map (fun c => c.longitude.getD 0)

/-- Vertical label offset, lines 337-342: 0.1 percent of the raw
latitude span, with the fixed fallback 0.001 when that is zero. -/
def label_offset_y_of (route : List RoutePoint) : ℚ :=
  let v := coord_span (route_lats route) * 0.001
  if v = 0 then 0.001 else v

/-- np.clip(x, 0.0, 1.0), lines 434-435. -/
def clip01 (x : ℚ) : ℚ := min (max x 0) 1

/-- Effective longitude span for the relative label coordinates,
line 428: `max(lon_max - lon_min, 1e-9)`. -/
def eff_lon_span (b : Bounds) : ℚ := max (b.lon_max - b.lon_min) 0.000000001

/-- Effective latitude span, line 429. -/
def eff_lat_span (b : Bounds) : ℚ := max (b.lat_max - b.lat_min) 0.000000001

/-- Placed-label metadata entry, generate_map lines 436-445. -/
structure PlacedLabel where
  name : String
  x_rel : ℚ
  y_rel : ℚ
  anchor_lon : ℚ
  anchor_lat : ℚ
  locked : Bool
  dx : ℚ
  dy : ℚ
deriving Repr, DecidableEq

/-- Per-city label pass: the text target position of lines 345-355 (an
override places the text at anchor + (dx, dy), otherwise just above the
point) combined with the metadata of lines 431-445 built from the same
(unmoved) text position.  A city whose latitude or longitude is None
reaches this loop because unique_cities iterates the raw route; the
Python expressions `lat + label_offset_y` / `lon + float(...)` (and
later `float(None)` in the metadata) then raise, which is modeled as the
error value. -/
def place_city (overrides : List (String × LabelOverride)) (label_offset_y : ℚ)
    (b : Bounds) (c : RoutePoint) : Except String PlacedLabel :=
  match c.longitude, c.latitude with
  | some lon, some lat =>
    let ov := List.lookup c.name overrides
    let pos : Pt :=
      match ov with
      | none => (lon, lat + label_offset_y)
      | some o => (lon + o.dx, lat + o.dy)
    .ok { name := c.name
          x_rel := clip01 ((pos.1 - b.lon_min) / eff_lon_span b)
          y_rel := clip01 ((pos.2 - b.lat_min) / eff_lat_span b)
          anchor_lon := lon
          anchor_lat := lat
          locked := ov.isSome
          dx := pos.1 - lon
          dy := pos.2 - lat }
  | _, _ => .error "TypeError: unsupported operand type(s) for +: NoneType and float"

/-- Sequential label loop over the unique cities (lines 345-383 and
431-445): the first failing city aborts the render, as an uncaught
Python exception would. -/
def place_all (overrides : List (String × LabelOverride)) (label_offset_y : ℚ)
    (b : Bounds) : List RoutePoint → Except String (List PlacedLabel)
  | [] => .ok []
  | c :: rest =>
    match place_city overrides label_offset_y b c with
    | .error e => .error e
    | .ok l =>
      match place_all overrides label_offset_y b rest with
      | .error e => .error e
      | .ok ls => .ok (l :: ls)

/-- Connector polylines drawn by generate_map lines 241-309: nothing for
fewer than two valid cities, else one curve per drawn segment. -/
def drawn_curves_of (p : GenParams) (route : List RoutePoint) : List (List Pt) :=
  let lats := route_lats route
  let lons := route_lons route
  let names := (valid_cities route).map (fun c => c.name)
  if 1 < (valid_cities route).length then
    (drawn_segments p.merge_bidirectional_routes (segment_keys names)).map (fun sd =>
      build_curve (lons.getD sd.1.2.2 0, lats.getD sd.1.2.2 0)
        (lons.getD (sd.1.2.2 + 1) 0, lats.getD (sd.1.2.2 + 1) 0)
        sd.2.1 sd.2.2 p.curve_strength)
  else []

/-- Returned map_info payload of generate_map (lines 461-488), restricted
to the geometry that the claims are about; figsize is in inches. -/
structure MapInfo where
  labels : List PlacedLabel
  figsize : ℚ × ℚ
  bounds : Bounds
  drawn_curves : List (List Pt)
deriving Repr, DecidableEq

/-- Result of a generate_map call.  `inputError` models the early return
of lines 189-191 (the message is printed and the function returns None,
so no figure is created and no file written); `crash` models an uncaught
Python exception during rendering; `ok` carries the returned map_info
and the output path that was written (the save of lines 449-453 happens
exactly when an output file is supplied). -/
inductive RenderResult where
  | inputError (message : String)
  | crash (message : String)
  | ok (info : MapInfo) (saved_file : Option String)
deriving Repr, DecidableEq

/-- MapGenerator.generate_map, map_generator.py lines 167-495, on the
geometric outputs: validity filter and early exit (184-191), bounds
(199-211), figure size (213-232), connector curves (241-309), unique
cities and label placement with overrides (323-383), placed-label
metadata (428-445).  The relaxation routine
_place_labels_with_collision_avoidance is never invoked by generate_map,
so text positions equal their initial targets. -/
def generate_map (p : GenParams) (route : List RoutePoint) (output_file : Option String)
    (label_overrides : List (String × LabelOverride)) (render_labels : Bool)
    (hidden_labels : List String) : RenderResult :=
  if (valid_cities route).length < 1 then
    .inputError "Brak miast z poprawnymi współrzędnymi do wyświetlenia."
  else
    match place_all label_overrides (label_offset_y_of route)
        (compute_bounds p (route_lats route) (route_lons route))
        (unique_cities route hidden_labels) with
    | .error e => .crash e
    | .ok labels =>
      .ok { labels := labels
            figsize := resolve_figsize p (coord_span (route_lons route))
              (coord_span (route_lats route))
            bounds := compute_bounds p (route_lats route) (route_lons route)
            drawn_curves := drawn_curves_of p route } output_file

/-- Label entry of _place_labels_with_collision_avoidance,
map_generator.py lines 1095-1103. -/
structure RelaxEntry where
  position_px : Pt
  anchor_px : Pt
  half_width_px : ℚ
  half_height_px : ℚ
  locked : Bool
deriving Repr, DecidableEq

/-- One sequential update of the relaxation loop body (lines 1116-1158)
at index `k`.  A locked entry is skipped before any force is computed
(lines 1117-1118).  For an unlocked entry the source computes a shift
from segment repulsion, box overlap repulsion and the anchor pull, and
moves the entry only when the shift length exceeds 0.4, capping the
distance from the anchor at 140 px; that arithmetic involves Euclidean
norms (irrational over ℚ), so it is abstracted as the parameter `move`
giving the proposed new pixel position (`none` when the shift is below
the threshold).  The locked-label invariant proved about this model
holds for every `move`, in particular for the force computation of the
source. -/
def relax_step_at (move : List RelaxEntry → ℕ → Option Pt)
    (es : List RelaxEntry) (k : ℕ) : List RelaxEntry :=
  match es[k]? with
  | none => es
  | some e =>
    if e.locked then es
    else
      match move es k with
      | none => es
      | some new_pos => es.set k { e with position_px := new_pos }

/-- One pass of the `for entry in label_entries` loop (lines 1115-1158),
visiting the entries in order with in-place updates. -/
def relax_iteration (move : List RelaxEntry → ℕ → Option Pt)
    (es : List RelaxEntry) : List RelaxEntry :=
  (List.range es.length).foldl (relax_step_at move) es

/-- The bounded iteration loop `for _ in range(max_iterations)`
(lines 1114-1161); the early break when nothing moved only stops
earlier, so iterating any number of times covers it. -/
def relax_loop (move : List RelaxEntry → ℕ → Option Pt) :
    ℕ → List RelaxEntry → List RelaxEntry
  | 0, es => es
  | n + 1, es => relax_loop move n (relax_iteration move es)

/-- Affine data-to-pixel transform standing for ax.transData
(lines 1072-1076); matplotlib transData is affine per axis. -/
structure AffineT where
  sx : ℚ
  sy : ℚ
  tx : ℚ
  ty : ℚ
deriving Repr, DecidableEq

/-- data_to_px, line 1072-1073. -/
def data_to_px (T : AffineT) (q : Pt) : Pt :=
  (T.sx * q.1 + T.tx, T.sy * q.2 + T.ty)

/-- px_to_data, line 1075-1076 (the inverse transform). -/
def px_to_data (T : AffineT) (q : Pt) : Pt :=
  ((q.1 - T.tx) / T.sx, (q.2 - T.ty) / T.sy)

theorem px_to_data_data_to_px (T : AffineT) (q : Pt)
    (hx : T.sx ≠ 0) (hy : T.sy ≠ 0) : px_to_data T (data_to_px T q) = q := by
  unfold px_to_data data_to_px
  refine Prod.ext ?_ ?_ <;> field_simp

/-- Shallow JSON value for the label-overrides file
(src/label_overrides.py).  `.other` coarsely stands for values on which
the cleaning of load_overrides drops the entry (lists, unparseable
strings, and other values rejected by `float`); no writer in the
repository produces such values. -/
inductive JVal where
  | num (q : ℚ)
  | null
  | obj (fields : List (String × JVal))
  | other
deriving Repr

/-- Field access on a parsed JSON object (`value.get("dx")`); the parsed
Python dict has unique keys, modeled by first-match lookup. -/
def jfield (fields : List (String × JVal)) (key : String) : Option JVal :=
  List.lookup key fields

/-- Conversion of a dx/dy field, load_overrides lines 27-33:
`float(v) if v is not None else 0.0`; a missing field or JSON null gives
0.0, a number gives itself, and anything the `float` call rejects makes
the whole entry skipped (modeled as failure). -/
def jval_to_float : Option JVal → Option ℚ
  | none => some 0
  | some JVal.null => some 0
  | some (JVal.num q) => some q
  | some (JVal.obj _) => none
  | some JVal.other => none

/-- Cleaning of one raw entry, load_overrides lines 26-35: only dict
values survive, and only when both dx and dy convert. -/
def clean_entry (v : JVal) : Option LabelOverride :=
  match v with
  | JVal.obj fields =>
    match jval_to_float (jfield fields "dx"), jval_to_float (jfield fields "dy") with
    | some dx, some dy => some { dx := dx, dy := dy }
    | _, _ => none
  | _ => none

/-- Cleaning of the parsed top-level object, load_overrides lines 24-36. -/
def clean_overrides (raw : List (String × JVal)) : List (String × LabelOverride) :=
  raw.filterMap (fun kv => (clean_entry kv.2).map (fun e => (kv.1, e)))

/-- State of the overrides file: `none` when the file is missing, fails
to parse, or its top level is not an object (all of which load_overrides
reads as the empty mapping, lines 19-20 and 36-39); otherwise the fields
of the parsed top-level object. -/
abbrev OverridesFile := Option (List (String × JVal))

/-- load_overrides, src/label_overrides.py lines 18-39. -/
def load_overrides (f : OverridesFile) : List (String × LabelOverride) :=
  match f with
  | none => []
  | some raw => clean_overrides raw

/-- Serialization written by save_overrides (line 45): each cleaned
entry becomes the object with numeric dx and dy fields. -/
def serialize_overrides (m : List (String × LabelOverride)) : List (String × JVal) :=
  m.map (fun kv => (kv.1, JVal.obj [("dx", JVal.num kv.2.dx), ("dy", JVal.num kv.2.dy)]))

/-- Python dict assignment `data[city] = entry`: replace in place when
the key exists, else append. -/
def upsert (m : List (String × LabelOverride)) (k : String) (e : LabelOverride) :
    List (String × LabelOverride) :=
  match m with
  | [] => [(k, e)]
  | (k2, e2) :: rest => if k2 = k then (k, e) :: rest else (k2, e2) :: upsert rest k e

/-- set_override, src/label_overrides.py lines 61-65: load, assign the
entry with both components converted by `float`, save.  Assumes the file
is readable and writable (save_overrides swallows OSError otherwise). -/
def set_override (f : OverridesFile) (city : String) (dx dy : ℚ) : OverridesFile :=
  some (serialize_overrides (upsert (load_overrides f) city { dx := dx, dy := dy }))

/-- Inversion of a successful generate_map call: the payload fields are
the composed pipeline stages. -/
theorem generate_map_ok_inv {p : GenParams} {route : List RoutePoint} {out : Option String}
    {ov : List (String × LabelOverride)} {rl : Bool} {hid : List String}
    {info : MapInfo} {saved : Option String}
    (h : generate_map p route out ov rl hid = RenderResult.ok info saved) :
    info.bounds = compute_bounds p (route_lats route) (route_lons route) ∧
    info.figsize = resolve_figsize p (coord_span (route_lons route))
      (coord_span (route_lats route)) ∧
    place_all ov (label_offset_y_of route)
      (compute_bounds p (route_lats route) (route_lons route))
      (unique_cities route hid) = Except.ok info.labels ∧
    info.drawn_curves = drawn_curves_of p route ∧
    saved = out := by
  unfold generate_map at h
  split at h
  · cases h
  · split at h
    · cases h
    · rename_i labels hm
      injection h with h1 h2
      subst h2
      subst h1
      exact ⟨rfl, rfl, hm, rfl, rfl⟩

/-- Membership inversion for the sequential label loop. -/
theorem place_all_ok_mem {ov : List (String × LabelOverride)} {off : ℚ} {b : Bounds} :
    ∀ {cs : List RoutePoint} {ls : List PlacedLabel},
      place_all ov off b cs = Except.ok ls →
      ∀ l ∈ ls, ∃ c ∈ cs, place_city ov off b c = Except.ok l := by
  intro cs
  induction cs with
  | nil =>
    intro ls h l hl
    unfold place_all at h
    injection h with h1
    subst h1
    cases hl
  | cons c rest ih =>
    intro ls h l hl
    unfold place_all at h
    cases hc : place_city ov off b c with
    | error e => rw [hc] at h; cases h
    | ok lab =>
      rw [hc] at h
      cases hr : place_all ov off b rest with
      | error e => rw [hr] at h; cases h
      | ok ls2 =>
        rw [hr] at h
        injection h with h1
        subst h1
        rcases List.mem_cons.1 hl with h2 | h2
        · subst h2
          exact ⟨c, List.mem_cons_self c rest, hc⟩
        · obtain ⟨c2, hc2, hpc⟩ := ih hr l h2
          exact ⟨c2, List.mem_cons_of_mem c hc2, hpc⟩

/-- Field characterization of one successfully placed city. -/
theorem place_city_ok_fields {ov : List (String × LabelOverride)} {off : ℚ} {b : Bounds}
    {c : RoutePoint} {l : PlacedLabel}
    (h : place_city ov off b c = Except.ok l) :
    l.name = c.name ∧
    l.locked = (List.lookup c.name ov).isSome ∧
    l.x_rel = clip01 ((l.anchor_lon + l.dx - b.lon_min) / eff_lon_span b) ∧
    l.y_rel = clip01 ((l.anchor_lat + l.dy - b.lat_min) / eff_lat_span b) ∧
    (∀ o, List.lookup c.name ov = some o → l.dx = o.dx ∧ l.dy = o.dy) := by
  unfold place_city at h
  cases hlon : c.longitude with
  | none => rw [hlon] at h; cases hlat : c.latitude <;> rw [hlat] at h <;> cases h
  | some lon =>
    cases hlat : c.latitude with
    | none => rw [hlon, hlat] at h; cases h
    | some lat =>
      rw [hlon, hlat] at h
      cases hov : List.lookup c.name ov with
      | none =>
        rw [hov] at h
        injection h with h1
        subst h1
        refine ⟨rfl, rfl, ?_, ?_, ?_⟩
        · dsimp only
          ring_nf
        · dsimp only
          ring_nf
        · intro o ho
          cases ho
      | some o0 =>
        rw [hov] at h
        injection h with h1
        subst h1
        refine ⟨rfl, rfl, ?_, ?_, ?_⟩
        · dsimp only
          ring_nf
        · dsimp only
          ring_nf
        · intro o ho
          injection ho with ho2
          subst ho2
          dsimp only
          constructor <;> ring

theorem clip01_nonneg (x : ℚ) : 0 ≤ clip01 x :=
  le_min (le_max_right x 0) (by norm_num)

theorem clip01_le_one (x : ℚ) : clip01 x ≤ 1 :=
  min_le_right _ _

/-- One sequential relaxation update never touches a locked entry. -/
theorem relax_step_at_preserves_locked {move : List RelaxEntry → ℕ → Option Pt}
    {es : List RelaxEntry} {j : ℕ} {e : RelaxEntry} (k : ℕ)
    (hj : es[j]? = some e) (hl : e.locked = true) :
    (relax_step_at move es k)[j]? = some e := by
  unfold relax_step_at
  cases hk : es[k]? with
  | none => exact hj
  | some e2 =>
    by_cases hloc : e2.locked
    · simp only [hloc, if_true]
      exact hj
    · simp only [hloc, if_false, Bool.false_eq_true]
      cases hm : move es k with
      | none => exact hj
      | some np =>
        by_cases hjk : k = j
        · subst hjk
          rw [hk] at hj
          injection hj with he
          have : e2.locked = true := by rw [he]; exact hl
          exact absurd this hloc
        · exact (List.getElem?_set_ne hjk).trans hj

/-- A fold of sequential relaxation updates never touches a locked entry. -/
theorem foldl_relax_preserves_locked {move : List RelaxEntry → ℕ → Option Pt}
    (ks : List ℕ) {es : List RelaxEntry} {j : ℕ} {e : RelaxEntry}
    (hj : es[j]? = some e) (hl : e.locked = true) :
    (ks.foldl (relax_step_at move) es)[j]? = some e := by
  induction ks generalizing es with
  | nil => exact hj
  | cons k ks ih => exact ih (relax_step_at_preserves_locked k hj hl)

/-- Any number of relaxation iterations never touches a locked entry. -/
theorem relax_loop_preserves_locked {move : List RelaxEntry → ℕ → Option Pt}
    (n : ℕ) {es : List RelaxEntry} {j : ℕ} {e : RelaxEntry}
    (hj : es[j]? = some e) (hl : e.locked = true) :
    (relax_loop move n es)[j]? = some e := by
  induction n generalizing es with
  | zero => exact hj
  | succ n ih =>
    exact ih (foldl_relax_preserves_locked (List.range es.length) hj hl)

/-- Cleaning undoes the serialization written by save_overrides. -/
theorem clean_serialize (m : List (String × LabelOverride)) :
    clean_overrides (serialize_overrides m) = m := by
  induction m with
  | nil => rfl
  | cons kv rest ih =>
    obtain ⟨k, e⟩ := kv
    have h1 : serialize_overrides ((k, e) :: rest) =
        (k, JVal.obj [("dx", JVal.num e.dx), ("dy", JVal.num e.dy)]) ::
          serialize_overrides rest := rfl
    have h2 : clean_overrides
        ((k, JVal.obj [("dx", JVal.num e.dx), ("dy", JVal.num e.dy)]) ::
          serialize_overrides rest) =
        (k, e) :: clean_overrides (serialize_overrides rest) := rfl
    rw [h1, h2, ih]

/-- Lookup through a Python dict assignment. -/
theorem lookup_upsert (m : List (String × LabelOverride)) (k : String) (e : LabelOverride)
    (c2 : String) :
    List.lookup c2 (upsert m k e) = if c2 = k then some e else List.lookup c2 m := by
  induction m with
  | nil =>
    by_cases h : c2 = k
    · rw [if_pos h]
      show List.lookup c2 [(k, e)] = some e
      unfold List.lookup
      rw [show (c2 == k) = true from beq_iff_eq.mpr h]
    · rw [if_neg h]
      show List.lookup c2 [(k, e)] = List.lookup c2 []
      unfold List.lookup
      rw [show (c2 == k) = false from beq_eq_false_iff_ne.mpr h]
      rfl
  | cons kv rest ih =>
    obtain ⟨k2, e2⟩ := kv
    by_cases hk2 : k2 = k
    · subst hk2
      show List.lookup c2 (if k2 = k2 then (k2, e) :: rest else (k2, e2) :: upsert rest k2 e) =
        if c2 = k2 then some e else List.lookup c2 ((k2, e2) :: rest)
      rw [if_pos rfl]
      by_cases hc : c2 = k2
      · rw [if_pos hc]
        unfold List.lookup
        rw [show (c2 == k2) = true from beq_iff_eq.mpr hc]
      · rw [if_neg hc]
        unfold List.lookup
        rw [show (c2 == k2) = false from beq_eq_false_iff_ne.mpr hc]
    · show List.lookup c2 (if k2 = k then (k, e) :: rest else (k2, e2) :: upsert rest k e) =
        if c2 = k then some e else List.lookup c2 ((k2, e2) :: rest)
      rw [if_neg hk2]
      by_cases hc : c2 = k2
      · have hck : ¬ c2 = k := fun hh => hk2 (by rw [← hc]; exact hh)
        rw [if_neg hck]
        unfold List.lookup
        rw [show (c2 == k2) = true from beq_iff_eq.mpr hc]
      · unfold List.lookup
        rw [show (c2 == k2) = false from beq_eq_false_iff_ne.mpr hc]
        exact ih

/-- Segments drawn under merging, filtered to one canonical pair: the
first occurrence of the pair (unless already seen) and nothing else. -/
theorem drawn_merge_filter (c : String × String) (ks : List SegKey)
    (seen : List (String × String)) :
    (drawn_segments_merge ks seen).filter (fun d => canonical_of d.1 = c) =
      if c ∈ seen then []
      else ((ks.filter (fun k => canonical_of k = c)).take 1).map (fun k => (k, 0, 1)) := by
  induction ks generalizing seen with
  | nil => simp [drawn_segments_merge]
  | cons k rest ih =>
    show (if canonical_of k ∈ seen then drawn_segments_merge rest seen
        else (k, 0, 1) :: drawn_segments_merge rest (canonical_of k :: seen)).filter
        (fun d => canonical_of d.1 = c) = _
    by_cases hseen : canonical_of k ∈ seen
    · rw [if_pos hseen, ih seen]
      by_cases hc : c ∈ seen
      · rw [if_pos hc, if_pos hc]
      · rw [if_neg hc, if_neg hc]
        have hne : ¬ canonical_of k = c := fun hh => hc (hh ▸ hseen)
        rw [List.filter_cons_of_neg (by simpa using hne)]
    · rw [if_neg hseen, List.filter_cons]
      by_cases hck : canonical_of k = c
      · rw [ih (canonical_of k :: seen)]
        have hc1 : c ∈ canonical_of k :: seen := by
          rw [← hck]; exact List.mem_cons_self _ _
        have hcn : ¬ c ∈ seen := fun hh => hseen (by rw [hck]; exact hh)
        rw [if_pos hc1, if_neg hcn]
        simp [List.filter_cons, hck]
      · rw [ih (canonical_of k :: seen)]
        have hmm : (c ∈ canonical_of k :: seen) ↔ c ∈ seen := by
          simp only [List.mem_cons]
          constructor
          · intro hh
            rcases hh with hh | hh
            · exact absurd hh.symm hck
            · exact hh
          · exact Or.inr
        by_cases hc : c ∈ seen
        · rw [if_pos (hmm.mpr hc), if_pos hc]
          simp [hck]
        · rw [if_neg (fun hh => hc (hmm.mp hh)), if_neg hc]
          simp [List.filter_cons, hck]

/-- Pointwise symmetry of the quadratic Bezier under endpoint reversal:
the reversed-endpoint curve with the mirrored control point, evaluated
at `1 - t`, is the mirror image of the original curve at `t`. -/
theorem bezier_point_reversed_reflect (s q : Pt) (k t : ℚ)
    (hlen : (q.1 - s.1) ^ 2 + (q.2 - s.2) ^ 2 ≠ 0) :
    bezier_point q
      ((q.1 + s.1) / 2 + (-(s.2 - q.2)) * k, (q.2 + s.2) / 2 + (s.1 - q.1) * k)
      s (1 - t) =
    reflect_across s q
      (bezier_point s
        ((s.1 + q.1) / 2 + (-(q.2 - s.2)) * k, (s.2 + q.2) / 2 + (q.1 - s.1) * k)
        q t) := by
  unfold bezier_point reflect_across
  refine Prod.ext ?_ ?_ <;> (dsimp only; field_simp; ring)

/-- Every catalog entry is found back by its own id. -/
theorem paper_spec_for_own_id (spec : PaperSpec) (hmem : spec ∈ PAPER_FORMATS) :
    paper_spec_for spec.id = some spec := by
  fin_cases hmem <;> rfl

/-- Every catalog entry has positive physical dimensions. -/
theorem paper_spec_pos (spec : PaperSpec) (hmem : spec ∈ PAPER_FORMATS) :
    0 < spec.width_mm ∧ 0 < spec.height_mm := by
  fin_cases hmem <;> exact ⟨by norm_num, by norm_num⟩

/-- C2 counterexample: at the concrete bundle of N = 3 segments with the
default curve strength 0.25 and direction length 1, the fan offsets are
0.205, 0.25 and 0.295: they are NOT antisymmetric about the direct-line
midpoint (offset 0 = 0.205 differs from minus offset 2 = -0.295), and
their magnitude does NOT strictly increase away from the center index
(going left from the center, 0.205 < 0.25 decreases).  The fan is
centered on the base offset, on one side of the direct line. -/
theorem c2_counterexample :
    fan_offset 0.25 0 3 1 ≠ -(fan_offset 0.25 2 3 1) ∧
    ¬ (|fan_offset 0.25 1 3 1| < |fan_offset 0.25 0 3 1|) := by
  constructor
  · norm_num [fan_offset]
  · norm_num [fan_offset, abs_of_pos]

/-- C2 (amended): for a bundle of N >= 2 segments with positive base
offset, the fan offsets produced by _build_curve (lines 632-638) are
symmetric about the BASE offset (indices summing to N - 1 have offsets
averaging to base_offset = curve_strength * length) and strictly
increasing in the occurrence index, the fan being built by ADDING
(occurrence_index - (total - 1)/2) * 0.18 * base_offset to the base
offset. -/
theorem c2_amended_fan_symmetric_about_base (s L : ℚ) (N i j : ℕ)
    (hN : 1 < N) (hpos : 0 < s * L) :
    (i + j = N - 1 → fan_offset s i N L + fan_offset s j N L = 2 * (s * L)) ∧
    (i < j → fan_offset s i N L < fan_offset s j N L) := by
  constructor
  · intro hij
    have hcast : (i : ℚ) + (j : ℚ) = (N : ℚ) - 1 := by
      have h1 : ((i + j : ℕ) : ℚ) = ((N - 1 : ℕ) : ℚ) := by rw [hij]
      push_cast [Nat.cast_sub (le_of_lt hN)] at h1
      linarith
    unfold fan_offset
    rw [if_pos hN, if_pos hN]
    linear_combination (0.18 * (s * L)) * hcast
  · intro hij
    have hcast : (i : ℚ) < (j : ℚ) := by exact_mod_cast hij
    unfold fan_offset
    rw [if_pos hN, if_pos hN]
    have hk : 0 < 0.18 * (s * L) := by
      have : (0 : ℚ) < 0.18 := by norm_num
      exact mul_pos this hpos
    nlinarith [mul_pos (sub_pos.mpr hcast) hk]

/-- C2 witness at N = 3, strength 0.25, direction length 1 and indices
0 and 2. -/
theorem c2_amended_witness :
    (1 < 3) ∧ (0 < (0.25 : ℚ) * 1) ∧
    ((0 + 2 = 3 - 1 → fan_offset 0.25 0 3 1 + fan_offset 0.25 2 3 1 = 2 * ((0.25 : ℚ) * 1)) ∧
      (0 < 2 → fan_offset 0.25 0 3 1 < fan_offset 0.25 2 3 1)) :=
  ⟨by norm_num, by norm_num,
    c2_amended_fan_symmetric_about_base 0.25 1 3 0 2 (by norm_num) (by norm_num)⟩

/-- C3: a route with zero valid (coordinate-bearing) points makes
generate_map stop before any rendering: the result is the input-error
outcome carrying the human-readable message printed at lines 189-191,
so no figure is drawn and no output file is produced. -/
theorem c3_zero_valid_points_input_error (p : GenParams) (route : List RoutePoint)
    (out : Option String) (ov : List (String × LabelOverride)) (rl : Bool)
    (hid : List String) (h : valid_cities route = []) :
    generate_map p route out ov rl hid =
      RenderResult.inputError "Brak miast z poprawnymi współrzędnymi do wyświetlenia." := by
  unfold generate_map
  rw [h]
  rfl

/-- Concrete route whose only point has no latitude. -/
def c3_route : List RoutePoint :=
  [{ name := "Atlantyda", latitude := none, longitude := some 10 }]

/-- C3 witness: the concrete all-invalid route yields the input error. -/
theorem c3_witness :
    valid_cities c3_route = [] ∧
    generate_map default_params c3_route (some "mapa.png") [] true [] =
      RenderResult.inputError "Brak miast z poprawnymi współrzędnymi do wyświetlenia." :=
  ⟨rfl, c3_zero_valid_points_input_error default_params c3_route (some "mapa.png") [] true [] rfl⟩

/-- Route with one valid point and one point missing both coordinates;
the invalid point is not hidden and has a fresh name, so the label loop
of lines 345-355 reaches it. -/
def c4_route : List RoutePoint :=
  [{ name := "Zaginione", latitude := none, longitude := none },
   { name := "Warszawa", latitude := some 52, longitude := some 21 }]

/-- C4 (code bug): a route containing one valid point plus a point with
missing (None) coordinates does NOT render with the invalid point
excluded.  The marker/curve stage filters to valid_cities, but the label
stage iterates the RAW route (line 326), so the None coordinate reaches
`lat + label_offset_y` and the render dies with a TypeError instead of
succeeding. -/
theorem c4_missing_coordinate_crashes :
    generate_map default_params c4_route (some "map.png") [] true [] =
      RenderResult.crash "TypeError: unsupported operand type(s) for +: NoneType and float" := rfl

/-- C1: locked (overridden) labels.  First conjunct: in every successful
generate_map result, a returned label whose name has an override entry
is reported locked and its rendered position is exactly
anchor + override (the reported dx/dy, which are position minus anchor,
equal the override components exactly).  Second conjunct: the relaxation
pass _place_labels_with_collision_avoidance never displaces a locked
entry, for EVERY force computation and iteration count and whatever
other labels or segments are present.  Third conjunct: the final
pixel-to-data conversion of lines 1163-1165 returns the locked position
anchor + override unchanged for any nondegenerate axes transform. -/
theorem c1_locked_label_exact :
    (∀ (p : GenParams) (route : List RoutePoint) (out : Option String)
        (ov : List (String × LabelOverride)) (rl : Bool) (hid : List String)
        (info : MapInfo) (saved : Option String),
        generate_map p route out ov rl hid = RenderResult.ok info saved →
        ∀ l ∈ info.labels, ∀ o, List.lookup l.name ov = some o →
          l.locked = true ∧ l.dx = o.dx ∧ l.dy = o.dy) ∧
    (∀ (move : List RelaxEntry → ℕ → Option Pt) (n k : ℕ)
        (es : List RelaxEntry) (e : RelaxEntry),
        es[k]? = some e → e.locked = true →
        (relax_loop move n es)[k]? = some e) ∧
    (∀ (T : AffineT) (anchor offset : Pt), T.sx ≠ 0 → T.sy ≠ 0 →
        px_to_data T (data_to_px T (anchor.1 + offset.1, anchor.2 + offset.2)) =
          (anchor.1 + offset.1, anchor.2 + offset.2)) := by
  refine ⟨?_, ?_, ?_⟩
  · intro p route out ov rl hid info saved hok l hl o ho
    obtain ⟨_, _, hplace, _, _⟩ := generate_map_ok_inv hok
    obtain ⟨c, _, hpc⟩ := place_all_ok_mem hplace l hl
    obtain ⟨hname, hlock, _, _, hdxy⟩ := place_city_ok_fields hpc
    have ho' : List.lookup c.name ov = some o := by rw [← hname]; exact ho
    obtain ⟨hdx, hdy⟩ := hdxy o ho'
    refine ⟨?_, hdx, hdy⟩
    rw [hlock, ho']
    rfl
  · intro move n k es e hk hl
    exact relax_loop_preserves_locked n hk hl
  · intro T anchor offset hx hy
    exact px_to_data_data_to_px T _ hx hy

/-- Parameters for the C1 witness render: defaults. -/
def c1_params : GenParams := default_params

/-- Single-city route for the C1 witness. -/
def c1_route : List RoutePoint :=
  [{ name := "Gdynia", latitude := some 54, longitude := some 18 }]

/-- Override moving the Gdynia label by (2, 3) degrees. -/
def c1_overrides : List (String × LabelOverride) :=
  [("Gdynia", { dx := 2, dy := 3 })]

/-- Expected generate_map payload for the C1 witness: bounds margin 1
around the single point, label placed at (20, 57) = anchor + override,
relative coordinates clamped to 1. -/
def c1_info : MapInfo :=
  { labels := [{ name := "Gdynia", x_rel := 1, y_rel := 1, anchor_lon := 18,
                 anchor_lat := 54, locked := true, dx := 2, dy := 3 }]
    figsize := (12, 8)
    bounds := { lon_min := 17, lon_max := 19, lat_min := 53, lat_max := 55 }
    drawn_curves := [] }

/-- Evaluation of the C1 witness render. -/
theorem c1_eval :
    generate_map c1_params c1_route (some "mapa.png") c1_overrides true [] =
      RenderResult.ok c1_info (some "mapa.png") := by
  simp [generate_map, c1_params, c1_route, c1_overrides, c1_info, default_params,
    valid_cities, route_lats, route_lons, compute_bounds, min_margin_eff,
    margin_factor_lat, margin_factor_lon, coord_span, list_min, list_max,
    label_offset_y_of, unique_cities, unique_cities_aux, place_all, place_city,
    clip01, eff_lon_span, eff_lat_span, resolve_figsize, drawn_curves_of,
    List.lookup]
  norm_num [min_def, max_def]

/-- Locked relax entry for the C1 witness. -/
def c1_entry : RelaxEntry :=
  { position_px := (100, 200), anchor_px := (90, 190), half_width_px := 30,
    half_height_px := 14, locked := true }

/-- Concrete force function for the C1 witness: always propose a move. -/
def c1_move : List RelaxEntry → ℕ → Option Pt := fun _ _ => some (0, 0)

/-- Concrete transform for the C1 witness. -/
def c1_transform : AffineT := { sx := 2, sy := 3, tx := 5, ty := 7 }

/-- The single placed label of the C1 witness render. -/
def c1_label : PlacedLabel :=
  { name := "Gdynia", x_rel := 1, y_rel := 1, anchor_lon := 18,
    anchor_lat := 54, locked := true, dx := 2, dy := 3 }

/-- The override entry of the C1 witness. -/
def c1_ov_entry : LabelOverride := { dx := 2, dy := 3 }

/-- C1 witness: the rendered override label is locked with dx/dy equal to
the override, a locked relax entry survives 5 iterations of an always-
moving force unchanged, and the pixel round trip returns
anchor + override. -/
theorem c1_witness :
    (generate_map c1_params c1_route (some "mapa.png") c1_overrides true [] =
      RenderResult.ok c1_info (some "mapa.png")) ∧
    (c1_label ∈ c1_info.labels) ∧
    (List.lookup c1_label.name c1_overrides = some c1_ov_entry) ∧
    (c1_label.locked = true ∧ c1_label.dx = c1_ov_entry.dx ∧ c1_label.dy = c1_ov_entry.dy) ∧
    ([c1_entry][0]? = some c1_entry) ∧ (c1_entry.locked = true) ∧
    ((relax_loop c1_move 5 [c1_entry])[0]? = some c1_entry) ∧
    (c1_transform.sx ≠ 0) ∧ (c1_transform.sy ≠ 0) ∧
    (px_to_data c1_transform (data_to_px c1_transform ((18 : ℚ) + 2, (54 : ℚ) + 3)) =
      ((18 : ℚ) + 2, (54 : ℚ) + 3)) :=
  ⟨c1_eval, by norm_num [c1_info, c1_label],
    by norm_num [c1_overrides, c1_label, c1_ov_entry, List.lookup],
    c1_locked_label_exact.1 c1_params c1_route (some "mapa.png") c1_overrides true []
      c1_info (some "mapa.png") c1_eval c1_label (by norm_num [c1_info, c1_label])
      c1_ov_entry (by norm_num [c1_overrides, c1_label, c1_ov_entry, List.lookup]),
    rfl, rfl,
    c1_locked_label_exact.2.1 c1_move 5 0 [c1_entry] c1_entry rfl rfl,
    by norm_num [c1_transform], by norm_num [c1_transform],
    c1_locked_label_exact.2.2 c1_transform (18, 54) (2, 3)
      (by norm_num [c1_transform]) (by norm_num [c1_transform])⟩

/-- C9: in every successful render, every returned label has x_rel and
y_rel clamped to [0, 1], and the relative coordinates are exactly the
clamp of the unclamped position (anchor + reported dx/dy) mapped through
the bounds, i.e. the reported dx and dy are the unclamped position minus
the anchor even when the clamp saturates. -/
theorem c9_label_metadata_clamped (p : GenParams) (route : List RoutePoint)
    (out : Option String) (ov : List (String × LabelOverride)) (rl : Bool)
    (hid : List String) (info : MapInfo) (saved : Option String)
    (hok : generate_map p route out ov rl hid = RenderResult.ok info saved) :
    ∀ l ∈ info.labels,
      0 ≤ l.x_rel ∧ l.x_rel ≤ 1 ∧ 0 ≤ l.y_rel ∧ l.y_rel ≤ 1 ∧
      l.x_rel = clip01 ((l.anchor_lon + l.dx - info.bounds.lon_min) / eff_lon_span info.bounds) ∧
      l.y_rel = clip01 ((l.anchor_lat + l.dy - info.bounds.lat_min) / eff_lat_span info.bounds) := by
  intro l hl
  obtain ⟨hb, _, hplace, _, _⟩ := generate_map_ok_inv hok
  obtain ⟨c, _, hpc⟩ := place_all_ok_mem hplace l hl
  obtain ⟨_, _, hx, hy, _⟩ := place_city_ok_fields hpc
  rw [hb]
  exact ⟨hx ▸ clip01_nonneg _, hx ▸ clip01_le_one _, hy ▸ clip01_nonneg _,
    hy ▸ clip01_le_one _, hx, hy⟩

/-- Route for the C9 witness. -/
def c9_route : List RoutePoint :=
  [{ name := "Sopot", latitude := some 54, longitude := some 18 }]

/-- Override pushing the Sopot label far outside the computed bounds. -/
def c9_overrides : List (String × LabelOverride) :=
  [("Sopot", { dx := 100, dy := -100 })]

/-- Expected payload for the C9 witness: the raw relative position would
be (100 + 1)/2 horizontally and negative vertically, so x_rel clamps to
1 and y_rel clamps to 0, while dx/dy stay the full override. -/
def c9_info : MapInfo :=
  { labels := [{ name := "Sopot", x_rel := 1, y_rel := 0, anchor_lon := 18,
                 anchor_lat := 54, locked := true, dx := 100, dy := -100 }]
    figsize := (12, 8)
    bounds := { lon_min := 17, lon_max := 19, lat_min := 53, lat_max := 55 }
    drawn_curves := [] }

/-- Evaluation of the C9 witness render. -/
theorem c9_eval :
    generate_map default_params c9_route (some "mapa.png") c9_overrides true [] =
      RenderResult.ok c9_info (some "mapa.png") := by
  simp [generate_map, c9_route, c9_overrides, c9_info, default_params,
    valid_cities, route_lats, route_lons, compute_bounds, min_margin_eff,
    margin_factor_lat, margin_factor_lon, coord_span, list_min, list_max,
    label_offset_y_of, unique_cities, unique_cities_aux, place_all, place_city,
    clip01, eff_lon_span, eff_lat_span, resolve_figsize, drawn_curves_of,
    List.lookup]
  norm_num [min_def, max_def]

/-- C9 witness: on the out-of-bounds override render, every label of the
returned metadata is clamped and carries the unclamped dx/dy. -/
theorem c9_witness :
    (generate_map default_params c9_route (some "mapa.png") c9_overrides true [] =
      RenderResult.ok c9_info (some "mapa.png")) ∧
    (∀ l ∈ c9_info.labels,
      0 ≤ l.x_rel ∧ l.x_rel ≤ 1 ∧ 0 ≤ l.y_rel ∧ l.y_rel ≤ 1 ∧
      l.x_rel = clip01 ((l.anchor_lon + l.dx - c9_info.bounds.lon_min) / eff_lon_span c9_info.bounds) ∧
      l.y_rel = clip01 ((l.anchor_lat + l.dy - c9_info.bounds.lat_min) / eff_lat_span c9_info.bounds)) :=
  ⟨c9_eval,
    c9_label_metadata_clamped default_params c9_route (some "mapa.png") c9_overrides
      true [] c9_info (some "mapa.png") c9_eval⟩

/-- C5: bounds and margins of every successful render.  First conjunct:
the returned bounds are exactly (min - margin, max + margin) per axis
with margin = max(min_margin, span * margin_factor) computed
independently for latitude and longitude.  Second conjunct: every valid
point lies strictly inside the bounds (the margin is strictly
positive).  Third conjunct: a single-point route has span 0, so the
margin degenerates to the effective minimum margin (no division is
involved anywhere in the computation).  Fourth conjunct: the POSTCARD
format halves both the minimum margin and the margin factor. -/
theorem c5_bounds_margins (p : GenParams) (route : List RoutePoint)
    (out : Option String) (ov : List (String × LabelOverride)) (rl : Bool)
    (hid : List String) (info : MapInfo) (saved : Option String)
    (hmin : 0 < p.min_margin_deg)
    (hok : generate_map p route out ov rl hid = RenderResult.ok info saved) :
    (info.bounds.lat_min = list_min (route_lats route) -
        max (min_margin_eff p) (coord_span (route_lats route) * margin_factor_lat p) ∧
      info.bounds.lat_max = list_max (route_lats route) +
        max (min_margin_eff p) (coord_span (route_lats route) * margin_factor_lat p) ∧
      info.bounds.lon_min = list_min (route_lons route) -
        max (min_margin_eff p) (coord_span (route_lons route) * margin_factor_lon p) ∧
      info.bounds.lon_max = list_max (route_lons route) +
        max (min_margin_eff p) (coord_span (route_lons route) * margin_factor_lon p)) ∧
    (∀ c ∈ valid_cities route, ∀ la lo : ℚ, c.latitude = some la → c.longitude = some lo →
      info.bounds.lat_min < la ∧ la < info.bounds.lat_max ∧
      info.bounds.lon_min < lo ∧ lo < info.bounds.lon_max) ∧
    ((valid_cities route).length = 1 →
      max (min_margin_eff p) (coord_span (route_lats route) * margin_factor_lat p) =
        min_margin_eff p ∧
      max (min_margin_eff p) (coord_span (route_lons route) * margin_factor_lon p) =
        min_margin_eff p) ∧
    (p.paper_format = some "POSTCARD" →
      min_margin_eff p = p.min_margin_deg * 0.5 ∧
      margin_factor_lat p = p.max_margin_factor * 0.5 ∧
      margin_factor_lon p = p.max_margin_factor * 0.5) := by
  obtain ⟨hb, _, _, _, _⟩ := generate_map_ok_inv hok
  have hm0 : 0 < min_margin_eff p := by
    unfold min_margin_eff
    split
    · exact mul_pos hmin (by norm_num)
    · exact hmin
  refine ⟨?_, ?_, ?_, ?_⟩
  · rw [hb]
    exact ⟨rfl, rfl, rfl, rfl⟩
  · intro c hc la lo hla hlo
    have hla' : la ∈ route_lats route := by
      unfold route_lats
      exact List.mem_map.mpr ⟨c, hc, by rw [hla]; rfl⟩
    have hlo' : lo ∈ route_lons route := by
      unfold route_lons
      exact List.mem_map.mpr ⟨c, hc, by rw [hlo]; rfl⟩
    have h1 := list_min_le_mem hla'
    have h2 := mem_le_list_max hla'
    have h3 := list_min_le_mem hlo'
    have h4 := mem_le_list_max hlo'
    have hmlat : 0 < max (min_margin_eff p) (coord_span (route_lats route) * margin_factor_lat p) :=
      lt_of_lt_of_le hm0 (le_max_left _ _)
    have hmlon : 0 < max (min_margin_eff p) (coord_span (route_lons route) * margin_factor_lon p) :=
      lt_of_lt_of_le hm0 (le_max_left _ _)
    rw [hb]
    refine ⟨?_, ?_, ?_, ?_⟩
    · show list_min (route_lats route) -
        max (min_margin_eff p) (coord_span (route_lats route) * margin_factor_lat p) < la
      linarith
    · show la < list_max (route_lats route) +
        max (min_margin_eff p) (coord_span (route_lats route) * margin_factor_lat p)
      linarith
    · show list_min (route_lons route) -
        max (min_margin_eff p) (coord_span (route_lons route) * margin_factor_lon p) < lo
      linarith
    · show lo < list_max (route_lons route) +
        max (min_margin_eff p) (coord_span (route_lons route) * margin_factor_lon p)
      linarith
  · intro hlen1
    have hlat1 : (route_lats route).length = 1 := by
      unfold route_lats
      rw [List.length_map]
      exact hlen1
    have hlon1 : (route_lons route).length = 1 := by
      unfold route_lons
      rw [List.length_map]
      exact hlen1
    constructor
    · rw [coord_span, hlat1]
      norm_num
      exact le_of_lt hm0
    · rw [coord_span, hlon1]
      norm_num
      exact le_of_lt hm0
  · intro hp
    unfold min_margin_eff margin_factor_lat margin_factor_lon
    simp [hp]

/-- Single-point route for the C5 witness. -/
def c5_route : List RoutePoint :=
  [{ name := "Gdynia", latitude := some 54, longitude := some 18 }]

/-- Expected payload for the C5 witness render: margin 1 on both axes. -/
def c5_info : MapInfo :=
  { labels := [{ name := "Gdynia", x_rel := 1/2, y_rel := 1001/2000, anchor_lon := 18,
                 anchor_lat := 54, locked := false, dx := 0, dy := 1/1000 }]
    figsize := (12, 8)
    bounds := { lon_min := 17, lon_max := 19, lat_min := 53, lat_max := 55 }
    drawn_curves := [] }

/-- Evaluation of the C5 witness render. -/
theorem c5_eval :
    generate_map default_params c5_route (some "mapa.png") [] true [] =
      RenderResult.ok c5_info (some "mapa.png") := by
  simp [generate_map, c5_route, c5_info, default_params,
    valid_cities, route_lats, route_lons, compute_bounds, min_margin_eff,
    margin_factor_lat, margin_factor_lon, coord_span, list_min, list_max,
    label_offset_y_of, unique_cities, unique_cities_aux, place_all, place_city,
    clip01, eff_lon_span, eff_lat_span, resolve_figsize, drawn_curves_of,
    List.lookup]
  norm_num [min_def, max_def]

/-- C5 witness at the concrete single-point route. -/
theorem c5_witness :
    (0 < default_params.min_margin_deg) ∧
    (generate_map default_params c5_route (some "mapa.png") [] true [] =
      RenderResult.ok c5_info (some "mapa.png")) ∧
    ((c5_info.bounds.lat_min = list_min (route_lats c5_route) -
        max (min_margin_eff default_params)
          (coord_span (route_lats c5_route) * margin_factor_lat default_params) ∧
      c5_info.bounds.lat_max = list_max (route_lats c5_route) +
        max (min_margin_eff default_params)
          (coord_span (route_lats c5_route) * margin_factor_lat default_params) ∧
      c5_info.bounds.lon_min = list_min (route_lons c5_route) -
        max (min_margin_eff default_params)
          (coord_span (route_lons c5_route) * margin_factor_lon default_params) ∧
      c5_info.bounds.lon_max = list_max (route_lons c5_route) +
        max (min_margin_eff default_params)
          (coord_span (route_lons c5_route) * margin_factor_lon default_params)) ∧
    (∀ c ∈ valid_cities c5_route, ∀ la lo : ℚ,
      c.latitude = some la → c.longitude = some lo →
      c5_info.bounds.lat_min < la ∧ la < c5_info.bounds.lat_max ∧
      c5_info.bounds.lon_min < lo ∧ lo < c5_info.bounds.lon_max) ∧
    ((valid_cities c5_route).length = 1 →
      max (min_margin_eff default_params)
          (coord_span (route_lats c5_route) * margin_factor_lat default_params) =
        min_margin_eff default_params ∧
      max (min_margin_eff default_params)
          (coord_span (route_lons c5_route) * margin_factor_lon default_params) =
        min_margin_eff default_params) ∧
    (default_params.paper_format = some "POSTCARD" →
      min_margin_eff default_params = default_params.min_margin_deg * 0.5 ∧
      margin_factor_lat default_params = default_params.max_margin_factor * 0.5 ∧
      margin_factor_lon default_params = default_params.max_margin_factor * 0.5)) :=
  ⟨by norm_num [default_params], c5_eval,
    c5_bounds_margins default_params c5_route (some "mapa.png") [] true [] c5_info
      (some "mapa.png") (by norm_num [default_params]) c5_eval⟩

/-- C6: paper format resolution.  For every catalog entry and a
generator configured with its id: the resolved figure size in inches is
width_mm/25.4 by height_mm/25.4 (swapped exactly when orientation is
unlocked and the point bounding box aspect contradicts the format
aspect, first conjunct giving the precise swap condition); the canvas
aspect ratio equals the catalog ratio or its inverse exactly (second
conjunct, cross-multiplied), hence within the 1e-3 relative tolerance
(third conjunct); and the pixel aspect at any DPI equals the inch
aspect (fourth conjunct), so the tolerance holds at every DPI. -/
theorem c6_paper_format_resolution (spec : PaperSpec) (hmem : spec ∈ PAPER_FORMATS)
    (p : GenParams) (lon_span lat_span : ℚ) (hfmt : p.paper_format = some spec.id) :
    (resolve_figsize p lon_span lat_span =
      if ¬p.lock_paper_orientation ∧ lat_span < lon_span ∧
          spec.width_mm / MM_PER_INCH < spec.height_mm / MM_PER_INCH then
        (spec.height_mm / MM_PER_INCH, spec.width_mm / MM_PER_INCH)
      else if ¬p.lock_paper_orientation ∧ lon_span < lat_span ∧
          spec.height_mm / MM_PER_INCH < spec.width_mm / MM_PER_INCH then
        (spec.height_mm / MM_PER_INCH, spec.width_mm / MM_PER_INCH)
      else (spec.width_mm / MM_PER_INCH, spec.height_mm / MM_PER_INCH)) ∧
    ((resolve_figsize p lon_span lat_span).1 * spec.height_mm =
        (resolve_figsize p lon_span lat_span).2 * spec.width_mm ∨
      (resolve_figsize p lon_span lat_span).1 * spec.width_mm =
        (resolve_figsize p lon_span lat_span).2 * spec.height_mm) ∧
    (|(resolve_figsize p lon_span lat_span).1 / (resolve_figsize p lon_span lat_span).2 -
        spec.width_mm / spec.height_mm| ≤ 0.001 * (spec.width_mm / spec.height_mm) ∨
      |(resolve_figsize p lon_span lat_span).1 / (resolve_figsize p lon_span lat_span).2 -
        spec.height_mm / spec.width_mm| ≤ 0.001 * (spec.height_mm / spec.width_mm)) ∧
    (∀ dpi : ℚ, dpi ≠ 0 →
      ((resolve_figsize p lon_span lat_span).1 * dpi) /
          ((resolve_figsize p lon_span lat_span).2 * dpi) =
        (resolve_figsize p lon_span lat_span).1 / (resolve_figsize p lon_span lat_span).2) := by
  obtain ⟨hw, hh⟩ := paper_spec_pos spec hmem
  have hfind := paper_spec_for_own_id spec hmem
  have hc : MM_PER_INCH ≠ 0 := by norm_num [MM_PER_INCH]
  have hw' : spec.width_mm ≠ 0 := ne_of_gt hw
  have hh' : spec.height_mm ≠ 0 := ne_of_gt hh
  have hres : resolve_figsize p lon_span lat_span =
      if ¬p.lock_paper_orientation ∧ lat_span < lon_span ∧
          spec.width_mm / MM_PER_INCH < spec.height_mm / MM_PER_INCH then
        (spec.height_mm / MM_PER_INCH, spec.width_mm / MM_PER_INCH)
      else if ¬p.lock_paper_orientation ∧ lon_span < lat_span ∧
          spec.height_mm / MM_PER_INCH < spec.width_mm / MM_PER_INCH then
        (spec.height_mm / MM_PER_INCH, spec.width_mm / MM_PER_INCH)
      else (spec.width_mm / MM_PER_INCH, spec.height_mm / MM_PER_INCH) := by
    unfold resolve_figsize
    simp only [hfmt, hfind]
    rw [if_pos ⟨hw, hh⟩]
  refine ⟨hres, ?_, ?_, ?_⟩
  · rw [hres]
    split_ifs
    · exact Or.inr (by dsimp only; ring)
    · exact Or.inr (by dsimp only; ring)
    · exact Or.inl (by dsimp only; ring)
  · rw [hres]
    have hswap : (spec.height_mm / MM_PER_INCH) / (spec.width_mm / MM_PER_INCH) =
        spec.height_mm / spec.width_mm := by
      rw [div_div_div_comm, div_self hc, div_one]
    have hnoswap : (spec.width_mm / MM_PER_INCH) / (spec.height_mm / MM_PER_INCH) =
        spec.width_mm / spec.height_mm := by
      rw [div_div_div_comm, div_self hc, div_one]
    split_ifs
    · refine Or.inr ?_
      dsimp only
      rw [hswap, sub_self, abs_zero]
      exact mul_nonneg (by norm_num) (le_of_lt (div_pos hh hw))
    · refine Or.inr ?_
      dsimp only
      rw [hswap, sub_self, abs_zero]
      exact mul_nonneg (by norm_num) (le_of_lt (div_pos hh hw))
    · refine Or.inl ?_
      dsimp only
      rw [hnoswap, sub_self, abs_zero]
      exact mul_nonneg (by norm_num) (le_of_lt (div_pos hw hh))
  · intro dpi hd
    exact mul_div_mul_right _ _ hd

/-- The A4 catalog entry, for the C6 witness. -/
def c6_spec : PaperSpec := { id := "A4", label := "A4 (210 × 297 mm)", width_mm := 210, height_mm := 297 }

/-- Generator parameters selecting A4, for the C6 witness. -/
def c6_params : GenParams := { default_params with paper_format := some "A4" }

/-- C6 witness at the A4 format with a landscape-shaped bounding box
(longitude span 3 over latitude span 1), which triggers the swap. -/
theorem c6_witness :
    (c6_spec ∈ PAPER_FORMATS) ∧ (c6_params.paper_format = some c6_spec.id) ∧
    ((resolve_figsize c6_params 3 1 =
      if ¬c6_params.lock_paper_orientation ∧ (1 : ℚ) < 3 ∧
          c6_spec.width_mm / MM_PER_INCH < c6_spec.height_mm / MM_PER_INCH then
        (c6_spec.height_mm / MM_PER_INCH, c6_spec.width_mm / MM_PER_INCH)
      else if ¬c6_params.lock_paper_orientation ∧ (3 : ℚ) < 1 ∧
          c6_spec.height_mm / MM_PER_INCH < c6_spec.width_mm / MM_PER_INCH then
        (c6_spec.height_mm / MM_PER_INCH, c6_spec.width_mm / MM_PER_INCH)
      else (c6_spec.width_mm / MM_PER_INCH, c6_spec.height_mm / MM_PER_INCH)) ∧
    ((resolve_figsize c6_params 3 1).1 * c6_spec.height_mm =
        (resolve_figsize c6_params 3 1).2 * c6_spec.width_mm ∨
      (resolve_figsize c6_params 3 1).1 * c6_spec.width_mm =
        (resolve_figsize c6_params 3 1).2 * c6_spec.height_mm) ∧
    (|(resolve_figsize c6_params 3 1).1 / (resolve_figsize c6_params 3 1).2 -
        c6_spec.width_mm / c6_spec.height_mm| ≤ 0.001 * (c6_spec.width_mm / c6_spec.height_mm) ∨
      |(resolve_figsize c6_params 3 1).1 / (resolve_figsize c6_params 3 1).2 -
        c6_spec.height_mm / c6_spec.width_mm| ≤ 0.001 * (c6_spec.height_mm / c6_spec.width_mm)) ∧
    (∀ dpi : ℚ, dpi ≠ 0 →
      ((resolve_figsize c6_params 3 1).1 * dpi) / ((resolve_figsize c6_params 3 1).2 * dpi) =
        (resolve_figsize c6_params 3 1).1 / (resolve_figsize c6_params 3 1).2)) :=
  ⟨List.mem_cons_self _ _, rfl,
    c6_paper_format_resolution c6_spec (List.mem_cons_self _ _) c6_params 3 1 rfl⟩

/-- C10: set_override followed by load_overrides yields exactly the
written entry for the given city and leaves every other city unchanged
(as observed through load_overrides), for every prior file state. -/
theorem c10_set_override_roundtrip (f : OverridesFile) (city : String) (dx dy : ℚ)
    (c2 : String) :
    List.lookup c2 (load_overrides (set_override f city dx dy)) =
      if c2 = city then some { dx := dx, dy := dy } else List.lookup c2 (load_overrides f) := by
  have h1 : load_overrides (set_override f city dx dy) =
      upsert (load_overrides f) city { dx := dx, dy := dy } := by
    unfold set_override
    show load_overrides (some (serialize_overrides _)) = _
    unfold load_overrides
    exact clean_serialize _
  rw [h1, lookup_upsert]

/-- C7: the single-occurrence curve is symmetric under endpoint
reversal: building the curve from end to start and reversing the
resulting 50-sample polyline yields, point for point, the mirror image
(reflection across the line through the two points) of the original
polyline. -/
theorem c7_curve_reversal_mirror (s q : Pt) (strength : ℚ) (h : s ≠ q) :
    (build_curve q s 0 1 strength).reverse =
      (build_curve s q 0 1 strength).map (reflect_across s q) := by
  have hd : ¬((q.1 - s.1, q.2 - s.2) : Pt) = ((0 : ℚ), (0 : ℚ)) := by
    intro hc
    apply h
    have h1 : q.1 - s.1 = 0 := congrArg Prod.fst hc
    have h2 : q.2 - s.2 = 0 := congrArg Prod.snd hc
    exact Prod.ext (by linarith) (by linarith)
  have hd' : ¬((s.1 - q.1, s.2 - q.2) : Pt) = ((0 : ℚ), (0 : ℚ)) := by
    intro hc
    apply h
    have h1 : s.1 - q.1 = 0 := congrArg Prod.fst hc
    have h2 : s.2 - q.2 = 0 := congrArg Prod.snd hc
    exact Prod.ext (by linarith) (by linarith)
  have hlen : (q.1 - s.1) ^ 2 + (q.2 - s.2) ^ 2 ≠ 0 := by
    intro hc
    apply hd
    have e1 : (q.1 - s.1) ^ 2 = 0 :=
      le_antisymm (by nlinarith [sq_nonneg (q.2 - s.2)]) (sq_nonneg _)
    have e2 : (q.2 - s.2) ^ 2 = 0 :=
      le_antisymm (by nlinarith [sq_nonneg (q.1 - s.1)]) (sq_nonneg _)
    exact Prod.ext (pow_eq_zero_iff (by norm_num) |>.mp e1)
      (pow_eq_zero_iff (by norm_num) |>.mp e2)
  unfold build_curve
  rw [if_neg hd', if_neg hd]
  dsimp only
  apply List.ext_getElem
  · simp
  · intro n h1 h2
    rw [List.getElem_reverse]
    simp only [List.getElem_map, List.getElem_range, List.length_map, List.length_range]
    have hn : n < 50 := by
      simpa using h2
    have hle : n ≤ 49 := by omega
    have hc49 : ((50 - 1 - n : ℕ) : ℚ) = 49 - (n : ℚ) := by
      rw [show (50 - 1 - n : ℕ) = 49 - n from rfl, Nat.cast_sub hle]
      norm_num
    rw [hc49, show (49 - (n : ℚ)) / 49 = 1 - (n : ℚ) / 49 by ring]
    exact bezier_point_reversed_reflect s q (fan_coeff strength 0 1) ((n : ℚ) / 49) hlen

/-- C7 witness endpoints. -/
def c7_s : Pt := (0, 0)

/-- C7 witness endpoints. -/
def c7_q : Pt := (3, 1)

/-- C7 witness at concrete distinct endpoints and the default strength. -/
theorem c7_witness :
    (c7_s ≠ c7_q) ∧
    ((build_curve c7_q c7_s 0 1 0.25).reverse =
      (build_curve c7_s c7_q 0 1 0.25).map (reflect_across c7_s c7_q)) :=
  ⟨by norm_num [c7_s, c7_q, Prod.ext_iff],
    c7_curve_reversal_mirror c7_s c7_q 0.25 (by norm_num [c7_s, c7_q, Prod.ext_iff])⟩

/-- C8: with the merge-bidirectional-routes flag, for every unordered
pair of city names that occurs among the consecutive segments of the
route, exactly one connector is drawn for that pair (first conjunct) and
it is precisely the first segment of the route with that unordered pair
(second conjunct); every later occurrence, in particular a reversed
B-to-A segment, is suppressed. -/
theorem c8_merge_draws_single_curve (names : List String) (a b : String)
    (hocc : canonical_pair a b ∈ (segment_keys names).map canonical_of) :
    ((drawn_segments true (segment_keys names)).filter
        (fun d => canonical_of d.1 = canonical_pair a b)).length = 1 ∧
    ((drawn_segments true (segment_keys names)).filter
        (fun d => canonical_of d.1 = canonical_pair a b)).map (fun d => d.1) =
      ((segment_keys names).filter
        (fun k => canonical_of k = canonical_pair a b)).take 1 := by
  have hds : drawn_segments true (segment_keys names) =
      drawn_segments_merge (segment_keys names) [] := rfl
  have hbase := drawn_merge_filter (canonical_pair a b) (segment_keys names) []
  rw [if_neg (List.not_mem_nil _)] at hbase
  obtain ⟨k0, hk0, hck0⟩ := List.mem_map.mp hocc
  have hmem' : k0 ∈ (segment_keys names).filter
      (fun k => canonical_of k = canonical_pair a b) :=
    List.mem_filter.mpr ⟨hk0, decide_eq_true hck0⟩
  have hpos : 0 < ((segment_keys names).filter
      (fun k => canonical_of k = canonical_pair a b)).length :=
    List.length_pos.mpr (List.ne_nil_of_mem hmem')
  constructor
  · rw [hds, hbase, List.length_map, List.length_take]
    omega
  · rw [hds, hbase, List.map_map]
    have : ((fun d => d.1) ∘ (fun k => ((k, 0, 1) : SegKey × ℕ × ℕ))) = id := rfl
    rw [this, List.map_id]

/-- Route names for the C8 witness: the Warszawa-Krakow pair appears
forward and then reversed. -/
def c8_names : List String := ["Warszawa", "Krakow", "Warszawa"]

/-- Membership fact for the C8 witness: the Warszawa-Krakow unordered
pair occurs among the segment keys of the witness route. -/
theorem c8_occ_mem :
    canonical_pair "Warszawa" "Krakow" ∈ (segment_keys c8_names).map canonical_of := by
  rw [show segment_keys c8_names =
    [("Warszawa", "Krakow", 0), ("Krakow", "Warszawa", 1)] from rfl]
  exact List.Mem.head _

/-- C8 witness: on the A-B-A route the merged drawing keeps exactly the
first segment of the pair. -/
theorem c8_witness :
    (canonical_pair "Warszawa" "Krakow" ∈ (segment_keys c8_names).map canonical_of) ∧
    (((drawn_segments true (segment_keys c8_names)).filter
        (fun d => canonical_of d.1 = canonical_pair "Warszawa" "Krakow")).length = 1 ∧
      ((drawn_segments true (segment_keys c8_names)).filter
        (fun d => canonical_of d.1 = canonical_pair "Warszawa" "Krakow")).map (fun d => d.1) =
        ((segment_keys c8_names).filter
          (fun k => canonical_of k = canonical_pair "Warszawa" "Krakow")).take 1) :=
  ⟨c8_occ_mem, c8_merge_draws_single_curve c8_names "Warszawa" "Krakow" c8_occ_mem⟩

end Louisiana
